import Mathlib

/-!
# Job-lifecycle controller of the genome imputation front end

A shallow embedding of `src/web_ui/frontend/src/App.js`: the React component
`App`, its state variables, its event handlers and its polling effect.

* `AppState` holds the seven `useState` variables (lines 6-12).
* Every handler is a function on `AppState`; an `async` handler is split at its
  `await`s into the pieces that run between two suspension points, and the
  handler itself is their composition for a given backend reply.
* `Component` adds what the source leaves to the runtime: the interval timers
  created by `setInterval`, the cleanup closure of the polling effect, and
  whether the component is mounted.
-/

namespace App

/-! ## Data -/

/-- The part of a browser `File` the component reads. -/
structure File where
  name : String
  size : Nat
  deriving DecidableEq, Repr

/-- A job object as the component stores it: the literal built in `handleUpload`
(lines 121-126) and the body of `GET /api/status/{uuid}`. `error` is read at
line 53 and may be missing. -/
structure Job where
  uuid : String
  status : String
  original_filename : String
  uploaded_at : String
  error : Option String
  deriving DecidableEq, Repr

/-- The `useState` variables of `App` (lines 6-12). -/
structure AppState where
  selectedFile : Option File
  isDragging : Bool
  uploading : Bool
  currentJob : Option Job
  jobs : List Job
  error : String
  success : String
  deriving DecidableEq, Repr

/-- The initial values passed to `useState` (lines 6-12). -/
def initialState : AppState :=
  { selectedFile := none, isDragging := false, uploading := false,
    currentJob := none, jobs := [], error := "", success := "" }

/-- Body of a failed response, as far as `err.response?.data?.detail` reads it. -/
structure ErrorBody where
  detail : Option String
  deriving DecidableEq, Repr

/-- The `response` of a rejected axios call. -/
structure ErrorResponse where
  data : Option ErrorBody
  deriving DecidableEq, Repr

/-- The value caught at line 132: `response` is missing on a network error. -/
structure AxiosError where
  response : Option ErrorResponse
  deriving DecidableEq, Repr

/-- The body of a successful `POST /api/upload`, destructured at line 114. -/
structure UploadResponse where
  uuid : String
  filename : String
  deriving DecidableEq, Repr

/-- The network requests the component issues. -/
inductive Request where
  | getFiles
  | postUpload (file : File)
  | postProcess (uuid : String)
  | getStatus (uuid : String)
  | getDownload (uuid : String)
  deriving DecidableEq, Repr

/-! ## JavaScript helpers -/

/-- The method `String.prototype.endsWith`: `suffix` is a suffix of `s`. -/
def endsWith (s suffix : String) : Bool :=
  suffix.data.isSuffixOf s.data

/-- The expression `a || b` for an optional string `a`: `undefined` and the
empty string are falsy. -/
def orElse (a : Option String) (b : String) : String :=
  match a with
  | some s => if s = "" then b else s
  | none => b

/-- A value inside a template literal: a missing value prints as `undefined`. -/
def interpolate (a : Option String) : String :=
  match a with
  | some s => s
  | none => "undefined"

/-- The optional chain `err.response?.data?.detail` (line 133). -/
def errorDetail (err : AxiosError) : Option String :=
  match err.response with
  | none => none
  | some r =>
    match r.data with
    | none => none
    | some d => d.detail

/-! ## Synchronous handlers -/

/-- The handler `handleFileSelect` (lines 60-69); `file` is
`event.target.files[0]`. -/
def handleFileSelect (file : Option File) (s : AppState) : AppState :=
  match file with
  | some f =>
    if endsWith f.name ".txt" then
      { s with selectedFile := some f, error := "" }
    else
      { s with error := "Please select a .txt file", selectedFile := none }
  | none => { s with error := "Please select a .txt file", selectedFile := none }

/-- The handler `handleDragOver` (lines 71-74). -/
def handleDragOver (s : AppState) : AppState :=
  { s with isDragging := true }

/-- The handler `handleDragLeave` (lines 76-79). -/
def handleDragLeave (s : AppState) : AppState :=
  { s with isDragging := false }

/-- The handler `handleDrop` (lines 81-92); `file` is
`event.dataTransfer.files[0]`. -/
def handleDrop (file : Option File) (s : AppState) : AppState :=
  let s1 := { s with isDragging := false }
  match file with
  | some f =>
    if endsWith f.name ".txt" then
      { s1 with selectedFile := some f, error := "" }
    else
      { s1 with error := "Please drop a .txt file" }
  | none => { s1 with error := "Please drop a .txt file" }

/-! ## `handleUpload` (lines 94-137) -/

/-- Lines 95-102: the part of `handleUpload` before the first `await`. The
second component is the file handed to `POST /api/upload`, or `none` when the
handler returns at line 97. -/
def handleUpload_begin (s : AppState) : AppState × Option File :=
  match s.selectedFile with
  | none => ({ s with error := "Please select a file first" }, none)
  | some f => ({ s with uploading := true, error := "", success := "" }, some f)

/-- Lines 114-115: the upload request resolved with `r`. -/
def handleUpload_uploaded (r : UploadResponse) (s : AppState) : AppState :=
  { s with success := "File uploaded successfully! UUID: " ++ r.uuid }

/-- The object literal of lines 121-126; `now` is `new Date().toISOString()`. -/
def jobData (r : UploadResponse) (now : String) : Job :=
  { uuid := r.uuid, status := "processing", original_filename := r.filename,
    uploaded_at := now, error := none }

/-- Lines 121-130 and the `finally` of line 135: the process request resolved. -/
def handleUpload_processed (r : UploadResponse) (now : String) (s : AppState) : AppState :=
  { s with currentJob := some (jobData r now), jobs := jobData r now :: s.jobs,
           selectedFile := none, uploading := false }

/-- Lines 132-135: `catch` and `finally`, for a rejected request. -/
def handleUpload_failed (err : AxiosError) (s : AppState) : AppState :=
  { s with error := orElse (errorDetail err) "Upload failed", uploading := false }

/-- The handler `handleUpload` run to completion with no other event in
between. `uploadReply` answers `POST /api/upload`, `processReply` answers
`POST /api/process/{uuid}` (it is consulted only when that request is issued).
The result is the final state and the requests issued, in order. -/
def handleUpload (uploadReply : Except AxiosError UploadResponse)
    (processReply : Except AxiosError Unit) (now : String) (s : AppState) :
    AppState × List Request :=
  match handleUpload_begin s with
  | (s1, none) => (s1, [])
  | (s1, some f) =>
    match uploadReply with
    | .error err => (handleUpload_failed err s1, [Request.postUpload f])
    | .ok r =>
      let s2 := handleUpload_uploaded r s1
      match processReply with
      | .error err =>
        (handleUpload_failed err s2, [Request.postUpload f, Request.postProcess r.uuid])
      | .ok _ =>
        (handleUpload_processed r now s2, [Request.postUpload f, Request.postProcess r.uuid])

/-! ## `loadJobs`, `checkJobStatus`, `handleDownload` -/

/-- Line 32: `GET /api/files` resolved; `jobs` is `response.data.jobs`. -/
def loadJobs_loaded (jobs : Option (List Job)) (s : AppState) : AppState :=
  { s with jobs := jobs.getD [] }

/-- The updater passed to `setJobs` at lines 44-48. -/
def updateJobs (uuid : String) (updatedJob : Job) (prevJobs : List Job) : List Job :=
  prevJobs.map (fun job => if job.uuid = uuid then updatedJob else job)

/-- Lines 41-54: `GET /api/status/{uuid}` resolved with body `updatedJob`. -/
def checkJobStatus_resolved (uuid : String) (updatedJob : Job) (s : AppState) : AppState :=
  let s1 := { s with currentJob := some updatedJob,
                     jobs := updateJobs uuid updatedJob s.jobs }
  if updatedJob.status = "completed" then
    { s1 with success := "Processing completed! You can now download your results." }
  else if updatedJob.status = "error" then
    { s1 with error := "Processing failed: " ++ interpolate updatedJob.error }
  else s1

/-- The function `checkJobStatus` (lines 38-58) for a given reply: a rejected
request is logged and changes nothing (lines 55-57). -/
def checkJobStatus (uuid : String) (reply : Except AxiosError Job) (s : AppState) :
    AppState × List Request :=
  match reply with
  | .ok updatedJob => (checkJobStatus_resolved uuid updatedJob s, [Request.getStatus uuid])
  | .error _ => (s, [Request.getStatus uuid])

/-- Line 154: `GET /api/download/{uuid}` was rejected. -/
def handleDownload_failed (s : AppState) : AppState :=
  { s with error := "Download failed" }

/-- Line 148: the name under which the artifact is saved. -/
def downloadName (filename : String) : String :=
  filename ++ ".processed.gz"

/-- Line 229: the download button of the current job is rendered. -/
def downloadEnabled (s : AppState) : Bool :=
  match s.currentJob with
  | some j => j.status = "completed"
  | none => false

/-! ## The polling effect (lines 20-27) and the component around it -/

/-- A mounted instance of `App`: its state variables, the interval timers that
are live (handles returned by `setInterval` and not yet cleared), the handle
captured by the cleanup closure the polling effect returned at its last run
(line 25; `none` when the effect returned nothing), the next fresh handle, and
whether the component is still mounted. -/
structure Component where
  app : AppState
  mounted : Bool
  timers : List Nat
  cleanup : Option Nat
  nextTimer : Nat
  deriving DecidableEq, Repr

/-- The condition of line 21. -/
def shouldPoll (currentJob : Option Job) : Bool :=
  match currentJob with
  | some j => j.status != "completed" && j.status != "error"
  | none => false

/-- The body of the polling effect (lines 21-26): when the condition holds,
`setInterval` starts a timer and the effect returns a cleanup that clears it. -/
def pollEffect (c : Component) : Component :=
  if shouldPoll c.app.currentJob then
    { c with timers := c.nextTimer :: c.timers, cleanup := some c.nextTimer,
             nextTimer := c.nextTimer + 1 }
  else
    { c with cleanup := none }

/-- The cleanup of the previous run of the polling effect (line 25):
`clearInterval(interval)`, when that run returned a cleanup. -/
def pollCleanup (c : Component) : Component :=
  match c.cleanup with
  | some t => { c with timers := c.timers.filter (fun x => x != t), cleanup := none }
  | none => c

/-- A render in which `setCurrentJob` was called with a new object: the
dependency `[currentJob]` (line 27) changed, so the previous cleanup runs and
then the effect body. Every call of `setCurrentJob` in the source passes a
freshly created object (lines 43 and 128). -/
def setCurrentJobRender (app : AppState) (c : Component) : Component :=
  pollEffect (pollCleanup { c with app := app })

/-- A render in which `currentJob` was not set: the polling effect does not run. -/
def render (app : AppState) (c : Component) : Component :=
  { c with app := app }

/-- Unmounting runs the cleanup of the polling effect. -/
def unmount (c : Component) : Component :=
  { pollCleanup c with mounted := false }

/-- The component after its first render: the mount effect (lines 15-17) has
issued `GET /api/files`, and the polling effect has run with `currentJob`
being `null`. -/
def initialComponent : Component :=
  pollEffect { app := initialState, mounted := true, timers := [], cleanup := none,
               nextTimer := 0 }

/-- What can happen to a mounted component: a user action, a request of an
`async` function settling (the function resumes after its `await`), a timer
firing, or the component being torn down. -/
inductive Event where
  | filesLoaded (jobs : Option (List Job))
  | filesRejected
  | fileSelect (file : Option File)
  | dragOver
  | dragLeave
  | drop (file : Option File)
  | uploadClicked
  | uploadResolved (r : UploadResponse)
  | processResolved (r : UploadResponse) (now : String)
  | uploadRejected (err : AxiosError)
  | tick (timer : Nat)
  | statusResolved (uuid : String) (updatedJob : Job)
  | statusRejected (uuid : String)
  | downloadRejected
  | unmount
  deriving DecidableEq, Repr

/-- One step of the component. A tick only issues a request (line 23) and a
rejected status or files request is only logged; state updates on an unmounted
component are dropped. -/
def step (e : Event) (c : Component) : Component :=
  if c.mounted then
    match e with
    | .filesLoaded jobs => render (loadJobs_loaded jobs c.app) c
    | .filesRejected => c
    | .fileSelect file => render (handleFileSelect file c.app) c
    | .dragOver => render (handleDragOver c.app) c
    | .dragLeave => render (handleDragLeave c.app) c
    | .drop file => render (handleDrop file c.app) c
    | .uploadClicked => render (handleUpload_begin c.app).1 c
    | .uploadResolved r => render (handleUpload_uploaded r c.app) c
    | .processResolved r now => setCurrentJobRender (handleUpload_processed r now c.app) c
    | .uploadRejected err => render (handleUpload_failed err c.app) c
    | .tick _ => c
    | .statusResolved uuid updatedJob =>
      setCurrentJobRender (checkJobStatus_resolved uuid updatedJob c.app) c
    | .statusRejected _ => c
    | .downloadRejected => render (handleDownload_failed c.app) c
    | .unmount => unmount c
  else c

/-- Run a sequence of events, first to last. -/
def run (es : List Event) (c : Component) : Component :=
  es.foldl (fun c e => step e c) c

/-- The states of the component that some sequence of events leads to. -/
inductive Reachable : Component → Prop where
  | init : Reachable initialComponent
  | step (e : Event) (c : Component) : Reachable c → Reachable (step e c)

/-! ## Sample data: the scenarios of section 8 of the specification -/

namespace Sample

/-- A selected text file. -/
def txtFile : File := { name := "sample.txt", size := 2048 }

/-- A file that is not a text file. -/
def csvFile : File := { name := "notes.csv", size := 512 }

/-- The component state with `sample.txt` selected. -/
def selected : AppState := { initialState with selectedFile := some txtFile }

/-- The reply to the upload of `sample.txt`. -/
def uploaded : UploadResponse := { uuid := "abc-123", filename := "sample.txt" }

/-- A rejected request whose body carries `detail`. -/
def rejected (detail : String) : AxiosError :=
  { response := some { data := some { detail := some detail } } }

/-- A job with the given id and status. -/
def job (uuid status : String) : Job :=
  { uuid := uuid, status := status, original_filename := "sample.txt",
    uploaded_at := "2024-01-01T00:00:00.000Z", error := none }

/-- The time stamp taken at line 125 in the scenario. -/
def now : String := "2024-01-01T00:00:00.000Z"

/-- The component after `sample.txt` was picked and uploaded, and the backend
assigned `abc-123`. -/
def afterUpload : Component :=
  run [Event.fileSelect (some txtFile), Event.uploadClicked, Event.uploadResolved uploaded,
    Event.processResolved uploaded now] initialComponent

/-- A status body for `abc-123`. -/
def statusBody (status : String) (error : Option String) : Job :=
  { uuid := "abc-123", status := status, original_filename := "sample.txt",
    uploaded_at := now, error := error }

end Sample

/-! ## Invariant of the polling effect -/

/-- The invariant of the polling effect: the live timers are exactly the one
the pending cleanup will clear, a cleanup is pending exactly when the component
is mounted and the condition of line 21 holds, and every live handle is older
than the next fresh one. -/
def Inv (c : Component) : Prop :=
  c.timers = c.cleanup.toList ∧
    c.cleanup.isSome = (c.mounted && shouldPoll c.app.currentJob) ∧
    ∀ t ∈ c.timers, t < c.nextTimer

instance (c : Component) : Decidable (Inv c) := by
  unfold Inv
  infer_instance

/-! ## Upload controller -/

theorem handleUpload_begin_selected (s : AppState) (f : File) (hsel : s.selectedFile = some f) :
    handleUpload_begin s = ({ s with uploading := true, error := "", success := "" }, some f) := by
  simp [handleUpload_begin, hsel]

theorem handleUpload_begin_none (s : AppState) (hsel : s.selectedFile = none) :
    handleUpload_begin s = ({ s with error := "Please select a file first" }, none) := by
  simp [handleUpload_begin, hsel]

/-- C1: when a file is selected (so both requests are issued) and the upload
request resolves with `r` and the process request resolves too, `handleUpload`
issues exactly those two requests and ends with a job record that has the id
and file name of `r` and status `processing`; the record is the head of the job
list, the previous list follows it unchanged, and it is the current job. The
last conjunct says the same of the final piece of the handler in whatever state
it resumes. -/
theorem handleUpload_success (s : AppState) (f : File) (r : UploadResponse) (now : String)
    (hsel : s.selectedFile = some f) :
    (handleUpload (.ok r) (.ok ()) now s).2
        = [Request.postUpload f, Request.postProcess r.uuid] ∧
      (∃ job : Job, job.uuid = r.uuid ∧ job.status = "processing" ∧
        job.original_filename = r.filename ∧
        (handleUpload (.ok r) (.ok ()) now s).1.jobs = job :: s.jobs ∧
        (handleUpload (.ok r) (.ok ()) now s).1.currentJob = some job) ∧
      (∀ s1 : AppState,
        (handleUpload_processed r now s1).jobs = jobData r now :: s1.jobs ∧
        (handleUpload_processed r now s1).currentJob = some (jobData r now)) := by
  refine ⟨?_, ⟨jobData r now, rfl, rfl, rfl, ?_, ?_⟩, fun s1 => ⟨rfl, rfl⟩⟩ <;>
    simp [handleUpload, handleUpload_begin_selected s f hsel, handleUpload_processed,
      handleUpload_uploaded]

theorem handleUpload_success_witness :
    (handleUpload (.ok Sample.uploaded) (.ok ()) "t" Sample.selected).2
        = [Request.postUpload Sample.txtFile, Request.postProcess Sample.uploaded.uuid] ∧
      (∃ job : Job, job.uuid = Sample.uploaded.uuid ∧ job.status = "processing" ∧
        job.original_filename = Sample.uploaded.filename ∧
        (handleUpload (.ok Sample.uploaded) (.ok ()) "t" Sample.selected).1.jobs
          = job :: Sample.selected.jobs ∧
        (handleUpload (.ok Sample.uploaded) (.ok ()) "t" Sample.selected).1.currentJob
          = some job) ∧
      (∀ s1 : AppState,
        (handleUpload_processed Sample.uploaded "t" s1).jobs
          = jobData Sample.uploaded "t" :: s1.jobs ∧
        (handleUpload_processed Sample.uploaded "t" s1).currentJob
          = some (jobData Sample.uploaded "t")) :=
  handleUpload_success Sample.selected Sample.txtFile Sample.uploaded "t" rfl

theorem orElse_eq (a : Option String) (b : String) :
    (∀ d, a = some d → d ≠ "" → orElse a b = d) ∧
      (a = none ∨ a = some "" → orElse a b = b) := by
  constructor
  · intro d ha hd
    simp [orElse, ha, hd]
  · rintro (ha | ha) <;> simp [orElse, ha]

/-- C2, as stated, fails: the upload request is rejected with a body whose
`detail` is the empty string; the message displayed is `Upload failed` and not
the detail the backend provided. -/
theorem handleUpload_empty_detail :
    Sample.selected.selectedFile = some Sample.txtFile ∧
      errorDetail (Sample.rejected "") = some "" ∧
      (handleUpload (.error (Sample.rejected "")) (.ok ()) "t" Sample.selected).1.error
        = "Upload failed" ∧
      (handleUpload (.error (Sample.rejected "")) (.ok ()) "t" Sample.selected).1.error
        ≠ "" := by
  decide

/-- C2, amended: when a file is selected and the upload request or the process
request is rejected with `err`, `handleUpload` leaves the job list and the
current job as they were; the displayed error is the detail of `err` when that
is a non-empty string, and `Upload failed` when `err` has no detail or an empty
one. -/
theorem handleUpload_failure (s : AppState) (f : File) (err : AxiosError)
    (uploadReply : Except AxiosError UploadResponse) (processReply : Except AxiosError Unit)
    (now : String) (hsel : s.selectedFile = some f)
    (hfail : uploadReply = .error err ∨
      ∃ r, uploadReply = .ok r ∧ processReply = .error err) :
    (handleUpload uploadReply processReply now s).1.jobs = s.jobs ∧
      (handleUpload uploadReply processReply now s).1.currentJob = s.currentJob ∧
      (∀ d, errorDetail err = some d → d ≠ "" →
        (handleUpload uploadReply processReply now s).1.error = d) ∧
      (errorDetail err = none ∨ errorDetail err = some "" →
        (handleUpload uploadReply processReply now s).1.error = "Upload failed") := by
  have herr : (handleUpload uploadReply processReply now s).1.error
      = orElse (errorDetail err) "Upload failed" := by
    rcases hfail with h | ⟨r, h1, h2⟩
    · simp [handleUpload, handleUpload_begin_selected s f hsel, h, handleUpload_failed]
    · simp [handleUpload, handleUpload_begin_selected s f hsel, h1, h2, handleUpload_failed]
  refine ⟨?_, ?_, ?_, ?_⟩
  · rcases hfail with h | ⟨r, h1, h2⟩
    · simp [handleUpload, handleUpload_begin_selected s f hsel, h, handleUpload_failed]
    · simp [handleUpload, handleUpload_begin_selected s f hsel, h1, h2, handleUpload_failed,
        handleUpload_uploaded]
  · rcases hfail with h | ⟨r, h1, h2⟩
    · simp [handleUpload, handleUpload_begin_selected s f hsel, h, handleUpload_failed]
    · simp [handleUpload, handleUpload_begin_selected s f hsel, h1, h2, handleUpload_failed,
        handleUpload_uploaded]
  · intro d hd hne
    rw [herr]
    exact (orElse_eq _ _).1 d hd hne
  · intro h
    rw [herr]
    exact (orElse_eq _ _).2 h

theorem handleUpload_failure_witness :
    (handleUpload (.ok Sample.uploaded) (.error (Sample.rejected "disk full")) "t"
        Sample.selected).1.jobs = Sample.selected.jobs ∧
      (handleUpload (.ok Sample.uploaded) (.error (Sample.rejected "disk full")) "t"
        Sample.selected).1.currentJob = Sample.selected.currentJob ∧
      (handleUpload (.ok Sample.uploaded) (.error (Sample.rejected "disk full")) "t"
        Sample.selected).1.error = "disk full" :=
  have h := handleUpload_failure Sample.selected Sample.txtFile (Sample.rejected "disk full")
    (.ok Sample.uploaded) (.error (Sample.rejected "disk full")) "t" rfl
    (Or.inr ⟨Sample.uploaded, rfl, rfl⟩)
  ⟨h.1, h.2.1, h.2.2.1 "disk full" rfl (by decide)⟩

/-- With no file selected `handleUpload` sets a validation message and issues
no request. -/
theorem handleUpload_nothing_selected (s : AppState)
    (uploadReply : Except AxiosError UploadResponse) (processReply : Except AxiosError Unit)
    (now : String) (hsel : s.selectedFile = none) :
    (handleUpload uploadReply processReply now s).1.error = "Please select a file first" ∧
      (handleUpload uploadReply processReply now s).2 = [] := by
  simp [handleUpload, handleUpload_begin_none s hsel]

/-- A file that is not a `.txt` file, offered through the file picker, clears
the selection, so a following `handleUpload` issues no request. -/
theorem handleFileSelect_rejects (s : AppState) (file : File)
    (uploadReply : Except AxiosError UploadResponse) (processReply : Except AxiosError Unit)
    (now : String) (hname : endsWith file.name ".txt" = false) :
    (handleFileSelect (some file) s).error = "Please select a .txt file" ∧
      (handleFileSelect (some file) s).selectedFile = none ∧
      (handleUpload uploadReply processReply now (handleFileSelect (some file) s)).1.error
        = "Please select a file first" ∧
      (handleUpload uploadReply processReply now (handleFileSelect (some file) s)).2 = [] := by
  have h : (handleFileSelect (some file) s).selectedFile = none := by
    simp [handleFileSelect, hname]
  refine ⟨by simp [handleFileSelect, hname], h, ?_⟩
  exact handleUpload_nothing_selected _ uploadReply processReply now h

/-- A file that is not a `.txt` file, dropped on the component, leaves the
selection as it was. -/
theorem handleDrop_rejects (s : AppState) (file : File)
    (hname : endsWith file.name ".txt" = false) :
    (handleDrop (some file) s).error = "Please drop a .txt file" ∧
      (handleDrop (some file) s).selectedFile = s.selectedFile := by
  simp [handleDrop, hname]

/-- C3 fails for `handleDrop`: with `sample.txt` selected, dropping `notes.csv`
sets the message `Please drop a .txt file` but keeps `sample.txt` selected, and
the following `handleUpload` issues the upload and process requests; the same
file offered through `handleFileSelect` clears the selection and no request is
issued. -/
theorem handleDrop_keeps_previous_selection :
    endsWith Sample.csvFile.name ".txt" = false ∧
      (handleDrop (some Sample.csvFile) Sample.selected).error = "Please drop a .txt file" ∧
      (handleDrop (some Sample.csvFile) Sample.selected).selectedFile
        = some Sample.txtFile ∧
      (handleUpload (.ok Sample.uploaded) (.ok ()) "t"
          (handleDrop (some Sample.csvFile) Sample.selected)).2
        = [Request.postUpload Sample.txtFile, Request.postProcess "abc-123"] ∧
      (handleUpload (.ok Sample.uploaded) (.ok ()) "t"
          (handleDrop (some Sample.csvFile) Sample.selected)).1.error = "" ∧
      (handleUpload (.ok Sample.uploaded) (.ok ()) "t"
          (handleFileSelect (some Sample.csvFile) Sample.selected)).2 = [] := by
  decide

/-! ## Status responses and the job list -/

theorem checkJobStatus_resolved_currentJob (u : String) (r : Job) (s : AppState) :
    (checkJobStatus_resolved u r s).currentJob = some r := by
  unfold checkJobStatus_resolved
  split_ifs <;> rfl

theorem checkJobStatus_resolved_jobs (u : String) (r : Job) (s : AppState) :
    (checkJobStatus_resolved u r s).jobs = updateJobs u r s.jobs := by
  unfold checkJobStatus_resolved
  split_ifs <;> rfl

/-- C4, as stated, fails: the current job is `b`, a status fetch for `a`
resolves, and the fetched record of `a` replaces `b` as the current job. -/
theorem checkJobStatus_stale_response :
    (Sample.job "b" "processing").uuid ≠ "a" ∧
      (checkJobStatus "a" (.ok (Sample.job "a" "completed"))
          { initialState with
            currentJob := some (Sample.job "b" "processing"),
            jobs := [Sample.job "b" "processing", Sample.job "a" "processing"] }).1.currentJob
        = some (Sample.job "a" "completed") ∧
      (checkJobStatus "a" (.ok (Sample.job "a" "completed"))
          { initialState with
            currentJob := some (Sample.job "b" "processing"),
            jobs := [Sample.job "b" "processing", Sample.job "a" "processing"] }).1.currentJob
        ≠ some (Sample.job "b" "processing") := by
  decide

/-- C4, amended: a resolved status fetch for id `u` is applied to the current
job without a check of `u`: in every state, whatever the id of the current job,
the fetched record becomes the current job. A rejected fetch changes nothing. -/
theorem checkJobStatus_sets_currentJob (u : String) (r : Job) (s : AppState) :
    (checkJobStatus u (.ok r) s).1.currentJob = some r ∧
      ∀ err, (checkJobStatus u (.error err) s).1 = s := by
  exact ⟨checkJobStatus_resolved_currentJob u r s, fun _ => rfl⟩

/-- C5, as stated, fails: the list holds a job with id `abc-123` and the upload
reply assigns `abc-123` again; the new record is put in front all the same, so
the insertion is not a no-op and the id occurs twice. -/
theorem handleUpload_duplicate_id :
    ((Sample.job "abc-123" "completed" :: []).map Job.uuid).Nodup ∧
      Sample.uploaded.uuid ∈ (Sample.job "abc-123" "completed" :: []).map Job.uuid ∧
      (handleUpload (.ok Sample.uploaded) (.ok ()) "t"
          { Sample.selected with jobs := [Sample.job "abc-123" "completed"] }).1.jobs
        ≠ [Sample.job "abc-123" "completed"] ∧
      ¬ ((handleUpload (.ok Sample.uploaded) (.ok ()) "t"
          { Sample.selected with jobs := [Sample.job "abc-123" "completed"] }).1.jobs.map
            Job.uuid).Nodup := by
  decide

/-- C5, amended: the insertion performed by a successful upload always puts the
new record in front of the previous list, whether or not its id is present; when
the ids of the list are pairwise distinct and the new id is not among them, the
ids are pairwise distinct afterwards. -/
theorem handleUpload_processed_inserts (r : UploadResponse) (now : String) (s : AppState) :
    (handleUpload_processed r now s).jobs = jobData r now :: s.jobs ∧
      ((s.jobs.map Job.uuid).Nodup → r.uuid ∉ s.jobs.map Job.uuid →
        ((handleUpload_processed r now s).jobs.map Job.uuid).Nodup) := by
  refine ⟨rfl, fun hnd hnew => ?_⟩
  show ((jobData r now :: s.jobs).map Job.uuid).Nodup
  rw [List.map_cons, List.nodup_cons]
  exact ⟨hnew, hnd⟩

/-- C6: the job-list update for a status response with id `u` and fetched
record `r` keeps the length; an entry whose id is not `u` stays, unchanged, at
its index; an entry whose id is `u` is replaced at its index by `r` itself; and
when no entry has id `u` the list is unchanged. -/
theorem updateJobs_in_place (u : String) (r : Job) (jobs : List Job) :
    (updateJobs u r jobs).length = jobs.length ∧
      (∀ (i : Nat) (job : Job), jobs[i]? = some job → job.uuid ≠ u → (updateJobs u r jobs)[i]? = some job) ∧
      (∀ (i : Nat) (job : Job), jobs[i]? = some job → job.uuid = u → (updateJobs u r jobs)[i]? = some r) ∧
      ((∀ job ∈ jobs, job.uuid ≠ u) → updateJobs u r jobs = jobs) := by
  refine ⟨by simp [updateJobs], ?_, ?_, ?_⟩
  · intro i job hi hne
    simp [updateJobs, List.getElem?_map, hi, hne]
  · intro i job hi he
    simp [updateJobs, List.getElem?_map, hi, he]
  · intro h
    unfold updateJobs
    conv_rhs => rw [← List.map_id jobs]
    apply List.map_congr_left
    intro job hj
    simp [h job hj]

/-! ## The polling effect -/

/-- The three resumptions of `handleUpload`, taken as steps of a mounted
component, leave the state variables as the handler run in one go does. -/
theorem run_upload_app (c : Component) (f : File) (r : UploadResponse) (now : String)
    (hm : c.mounted = true) (hsel : c.app.selectedFile = some f) :
    (run [.uploadClicked, .uploadResolved r, .processResolved r now] c).app
      = (handleUpload (.ok r) (.ok ()) now c.app).1 := by
  obtain ⟨app, mounted, timers, cleanup, nextTimer⟩ := c
  simp only at hm hsel
  subst hm
  simp only [run, List.foldl, step, render, setCurrentJobRender, if_true, handleUpload,
    handleUpload_begin_selected app f hsel]
  simp only [pollEffect, pollCleanup]
  split <;> split <;> rfl

theorem inv_initialComponent : Inv initialComponent := by
  decide

theorem inv_render (app : AppState) (c : Component) (h : Inv c)
    (hjob : app.currentJob = c.app.currentJob) : Inv (render app c) := by
  obtain ⟨h1, h2, h3⟩ := h
  exact ⟨h1, by simpa [render, hjob] using h2, h3⟩

/-- The component after a render that set the current job, for a state that
satisfies the invariant: the old timer is gone and a new one runs exactly when
the condition of line 21 holds for the new current job. -/
theorem setCurrentJobRender_eq (app : AppState) (c : Component) (h : Inv c) :
    setCurrentJobRender app c =
      if shouldPoll app.currentJob then
        { app := app, mounted := c.mounted, timers := [c.nextTimer],
          cleanup := some c.nextTimer, nextTimer := c.nextTimer + 1 }
      else
        { app := app, mounted := c.mounted, timers := [], cleanup := none,
          nextTimer := c.nextTimer } := by
  obtain ⟨app0, mounted, timers, cleanup, nextTimer⟩ := c
  obtain ⟨h1, -, -⟩ := h
  simp only at h1
  subst h1
  cases cleanup <;> by_cases hp : shouldPoll app.currentJob <;>
    simp [setCurrentJobRender, pollCleanup, pollEffect, hp]

theorem inv_setCurrentJobRender (app : AppState) (c : Component) (h : Inv c)
    (hm : c.mounted = true) : Inv (setCurrentJobRender app c) := by
  rw [setCurrentJobRender_eq app c h]
  by_cases hp : shouldPoll app.currentJob <;> simp [Inv, hp, hm]

theorem pollCleanup_timers (c : Component) (h : Inv c) : (pollCleanup c).timers = [] := by
  obtain ⟨app0, mounted, timers, cleanup, nextTimer⟩ := c
  obtain ⟨h1, -, -⟩ := h
  simp only at h1
  subst h1
  cases cleanup <;> simp [pollCleanup]

theorem inv_unmount (c : Component) (h : Inv c) : Inv (unmount c) := by
  have ht := pollCleanup_timers c h
  obtain ⟨app0, mounted, timers, cleanup, nextTimer⟩ := c
  cases cleanup <;> simp_all [Inv, unmount, pollCleanup]

theorem inv_step (e : Event) (c : Component) (h : Inv c) : Inv (step e c) := by
  unfold step
  by_cases hm : c.mounted = true
  · rw [if_pos hm]
    cases e with
    | filesLoaded jobs => exact inv_render _ c h rfl
    | filesRejected => exact h
    | fileSelect file =>
      refine inv_render _ c h ?_
      unfold handleFileSelect
      split
      · split_ifs <;> rfl
      · rfl
    | dragOver => exact inv_render _ c h rfl
    | dragLeave => exact inv_render _ c h rfl
    | drop file =>
      refine inv_render _ c h ?_
      unfold handleDrop
      split
      · split_ifs <;> rfl
      · rfl
    | uploadClicked =>
      refine inv_render _ c h ?_
      unfold handleUpload_begin
      split <;> rfl
    | uploadResolved r => exact inv_render _ c h rfl
    | processResolved r now => exact inv_setCurrentJobRender _ c h hm
    | uploadRejected err => exact inv_render _ c h rfl
    | tick t => exact h
    | statusResolved u r => exact inv_setCurrentJobRender _ c h hm
    | statusRejected u => exact h
    | downloadRejected => exact inv_render _ c h rfl
    | unmount => exact inv_unmount c h
  · rw [if_neg hm]
    exact h

theorem inv_of_reachable (c : Component) (h : Reachable c) : Inv c := by
  induction h with
  | init => exact inv_initialComponent
  | step e c _ ih => exact inv_step e c ih

theorem reachable_run (es : List Event) (c : Component) (h : Reachable c) :
    Reachable (run es c) := by
  induction es generalizing c with
  | nil => exact h
  | cons e es ih => exact ih (step e c) (Reachable.step e c h)

theorem shouldPoll_some (job : Job) :
    shouldPoll (some job) = true ↔ job.status ≠ "completed" ∧ job.status ≠ "error" := by
  simp [shouldPoll]

theorem updateJobs_length (u : String) (r : Job) (jobs : List Job) :
    (updateJobs u r jobs).length = jobs.length := by
  simp [updateJobs]

theorem updateJobs_getElem? (u : String) (r : Job) (jobs : List Job) (i : Nat) (job : Job)
    (hi : jobs[i]? = some job) :
    (updateJobs u r jobs)[i]? = some (if job.uuid = u then r else job) := by
  simp [updateJobs, List.getElem?_map, hi]

theorem updateJobs_idem (u : String) (r : Job) (jobs : List Job) :
    updateJobs u r (updateJobs u r jobs) = updateJobs u r jobs := by
  unfold updateJobs
  rw [List.map_map]
  apply List.map_congr_left
  intro job _
  by_cases h : job.uuid = u
  · simp [h]
  · simp [h]

theorem checkJobStatus_resolved_idem (u : String) (r : Job) (s : AppState) :
    checkJobStatus_resolved u r (checkJobStatus_resolved u r s)
      = checkJobStatus_resolved u r s := by
  unfold checkJobStatus_resolved
  split_ifs <;> simp [updateJobs_idem]

theorem shouldPoll_of_active (r : Job) (h : r.status = "uploaded" ∨ r.status = "processing") :
    shouldPoll (some r) = true := by
  rcases h with h | h <;> simp [shouldPoll, h]

theorem shouldPoll_of_terminal (r : Job) (h : r.status = "completed" ∨ r.status = "error") :
    shouldPoll (some r) = false := by
  rcases h with h | h <;> simp [shouldPoll, h]

/-- What a resolved status fetch does to a mounted component that satisfies the
invariant. -/
theorem step_statusResolved (u : String) (r : Job) (c : Component) (h : Inv c)
    (hm : c.mounted = true) :
    Inv (step (.statusResolved u r) c) ∧
      (step (.statusResolved u r) c).mounted = true ∧
      (step (.statusResolved u r) c).app = checkJobStatus_resolved u r c.app ∧
      (step (.statusResolved u r) c).timers
        = (if shouldPoll (some r) then [c.nextTimer] else []) ∧
      (step (.statusResolved u r) c).cleanup
        = (if shouldPoll (some r) then some c.nextTimer else none) ∧
      (step (.statusResolved u r) c).nextTimer
        = (if shouldPoll (some r) then c.nextTimer + 1 else c.nextTimer) := by
  refine ⟨inv_step _ c h, ?_⟩
  have hs : step (.statusResolved u r) c
      = setCurrentJobRender (checkJobStatus_resolved u r c.app) c := by
    simp [step, hm]
  rw [hs, setCurrentJobRender_eq _ c h, checkJobStatus_resolved_currentJob]
  by_cases hp : shouldPoll (some r) <;> simp [hp, hm]

theorem timers_of_unmounted (c : Component) (h : Inv c) (hm : ¬ c.mounted = true) :
    c.timers = [] := by
  obtain ⟨h1, h2, -⟩ := h
  have : c.cleanup = none := by
    cases hc : c.cleanup with
    | none => rfl
    | some t => simp [hc, hm] at h2
  simp [h1, this]

/-- C7: in every state the component can reach, at most one polling timer is
live, and a live timer implies that the component is mounted and that the
current job exists with a status other than `completed` and `error`. The
cleanup that runs first when the current job is set or the component is torn
down leaves no timer live; so no timer that was live before the current job is
set (by a finished upload or by a status response) is live afterwards, and none
is live after the component is torn down. -/
theorem polling_single_timer (c : Component) (h : Reachable c) :
    c.timers.length ≤ 1 ∧
      (∀ t ∈ c.timers, c.mounted = true ∧
        ∃ job, c.app.currentJob = some job ∧ job.status ≠ "completed" ∧
          job.status ≠ "error") ∧
      (pollCleanup c).timers = [] ∧
      (∀ r now, ∀ t ∈ c.timers, t ∉ (step (.processResolved r now) c).timers) ∧
      (∀ u r, ∀ t ∈ c.timers, t ∉ (step (.statusResolved u r) c).timers) ∧
      (step .unmount c).timers = [] := by
  have hinv := inv_of_reachable c h
  have hset : ∀ app : AppState, ∀ t ∈ c.timers, t ∉ (setCurrentJobRender app c).timers := by
    intro app t ht
    have hlt := hinv.2.2 t ht
    rw [setCurrentJobRender_eq app c hinv]
    by_cases hp : shouldPoll app.currentJob <;> simp [hp]
    omega
  refine ⟨?_, ?_, pollCleanup_timers c hinv, ?_, ?_, ?_⟩
  · rw [hinv.1]
    cases c.cleanup <;> simp
  · intro t ht
    have hsome : c.cleanup.isSome = true := by
      have := hinv.1 ▸ ht
      cases hc : c.cleanup with
      | none => simp [hc] at this
      | some _ => rfl
    have hb := hinv.2.1
    rw [hsome] at hb
    have hb2 : c.mounted = true ∧ shouldPoll c.app.currentJob = true := by
      simpa using hb.symm
    refine ⟨hb2.1, ?_⟩
    cases hj : c.app.currentJob with
    | none => simp [hj, shouldPoll] at hb2
    | some job =>
      refine ⟨job, rfl, ?_⟩
      have := hb2.2
      rw [hj] at this
      exact (shouldPoll_some job).1 this
  · intro r now t ht
    by_cases hm : c.mounted = true
    · simpa [step, hm] using hset _ t ht
    · simp [timers_of_unmounted c hinv hm] at ht
  · intro u r t ht
    by_cases hm : c.mounted = true
    · simpa [step, hm] using hset _ t ht
    · simp [timers_of_unmounted c hinv hm] at ht
  · by_cases hm : c.mounted = true
    · simp [step, hm, unmount, pollCleanup_timers c hinv]
    · simp [step, hm, timers_of_unmounted c hinv hm]

theorem polling_single_timer_witness :
    Sample.afterUpload.timers = [0] ∧
      Sample.afterUpload.timers.length ≤ 1 ∧
      (pollCleanup Sample.afterUpload).timers = [] ∧
      (step .unmount Sample.afterUpload).timers = [] :=
  have h := polling_single_timer Sample.afterUpload (reachable_run _ _ Reachable.init)
  ⟨by decide, h.1, h.2.2.1, h.2.2.2.2.2⟩

theorem checkJobStatus_resolved_completed (u : String) (r : Job) (s : AppState)
    (h : r.status = "completed") :
    (checkJobStatus_resolved u r s).success
      = "Processing completed! You can now download your results." := by
  simp [checkJobStatus_resolved, h]

theorem checkJobStatus_resolved_error (u : String) (r : Job) (s : AppState)
    (h : r.status = "error") :
    (checkJobStatus_resolved u r s).error = "Processing failed: " ++ interpolate r.error := by
  simp [checkJobStatus_resolved, h]

/-- C8: for a reachable, mounted component and a resolved status fetch with
body `r`: exactly one timer is live afterwards when the status of `r` is
`uploaded` or `processing`, none when it is `completed` or `error`, and the
success message is set when it is `completed`. For three responses in a row
with statuses `processing`, `processing`, `completed`, the component ends with
the success message set, no live timer, and the last body as current job, so
that the download button is rendered. -/
theorem statusResolved_polling (c : Component) (h : Reachable c) (hm : c.mounted = true)
    (u : String) (r : Job) :
    ((r.status = "uploaded" ∨ r.status = "processing") →
        ∃ t, (step (.statusResolved u r) c).timers = [t]) ∧
      ((r.status = "completed" ∨ r.status = "error") →
        (step (.statusResolved u r) c).timers = []) ∧
      (r.status = "completed" →
        (step (.statusResolved u r) c).app.success
          = "Processing completed! You can now download your results.") ∧
      (∀ r1 r2 r3 : Job, r1.status = "processing" → r2.status = "processing" →
        r3.status = "completed" →
        (run [.statusResolved u r1, .statusResolved u r2, .statusResolved u r3] c).app.success
            = "Processing completed! You can now download your results." ∧
          (run [.statusResolved u r1, .statusResolved u r2, .statusResolved u r3] c).timers
            = [] ∧
          (run [.statusResolved u r1, .statusResolved u r2,
            .statusResolved u r3] c).app.currentJob = some r3 ∧
          downloadEnabled
            (run [.statusResolved u r1, .statusResolved u r2, .statusResolved u r3] c).app
            = true) := by
  have hinv := inv_of_reachable c h
  obtain ⟨-, -, happ, htimers, -, -⟩ := step_statusResolved u r c hinv hm
  refine ⟨?_, ?_, ?_, ?_⟩
  · intro hs
    exact ⟨c.nextTimer, by rw [htimers, shouldPoll_of_active r hs]; rfl⟩
  · intro hs
    rw [htimers, shouldPoll_of_terminal r hs]
    rfl
  · intro hs
    rw [happ]
    exact checkJobStatus_resolved_completed u r c.app hs
  · intro r1 r2 r3 _ _ h3
    obtain ⟨hinv1, hm1, -, -, -, -⟩ := step_statusResolved u r1 c hinv hm
    obtain ⟨hinv2, hm2, -, -, -, -⟩ := step_statusResolved u r2 _ hinv1 hm1
    obtain ⟨-, -, happ3, htimers3, -, -⟩ := step_statusResolved u r3 _ hinv2 hm2
    have hrun : run [.statusResolved u r1, .statusResolved u r2, .statusResolved u r3] c
        = step (.statusResolved u r3)
            (step (.statusResolved u r2) (step (.statusResolved u r1) c)) := rfl
    rw [hrun]
    refine ⟨?_, ?_, ?_, ?_⟩
    · rw [happ3]
      exact checkJobStatus_resolved_completed u r3 _ h3
    · rw [htimers3, shouldPoll_of_terminal r3 (Or.inl h3)]
      rfl
    · rw [happ3]
      exact checkJobStatus_resolved_currentJob u r3 _
    · rw [happ3]
      simp [downloadEnabled, checkJobStatus_resolved_currentJob, h3]

theorem statusResolved_polling_witness :
    Sample.afterUpload.app.success = "File uploaded successfully! UUID: abc-123" ∧
      Sample.afterUpload.timers = [0] ∧
      (run [.statusResolved "abc-123" (Sample.statusBody "processing" none),
          .statusResolved "abc-123" (Sample.statusBody "processing" none),
          .statusResolved "abc-123" (Sample.statusBody "completed" none)]
          Sample.afterUpload).app.success
        = "Processing completed! You can now download your results." ∧
      (run [.statusResolved "abc-123" (Sample.statusBody "processing" none),
          .statusResolved "abc-123" (Sample.statusBody "processing" none),
          .statusResolved "abc-123" (Sample.statusBody "completed" none)]
          Sample.afterUpload).timers = [] ∧
      downloadEnabled
        (run [.statusResolved "abc-123" (Sample.statusBody "processing" none),
          .statusResolved "abc-123" (Sample.statusBody "processing" none),
          .statusResolved "abc-123" (Sample.statusBody "completed" none)]
          Sample.afterUpload).app = true :=
  have h := (statusResolved_polling Sample.afterUpload (reachable_run _ _ Reachable.init)
    (by decide) "abc-123" (Sample.statusBody "processing" none)).2.2.2
    (Sample.statusBody "processing" none) (Sample.statusBody "processing" none)
    (Sample.statusBody "completed" none) rfl rfl rfl
  ⟨by decide, by decide, h.1, h.2.1, h.2.2.2⟩

/-- C9: for a reachable, mounted component, a job `cur` at index `i` of the job
list (in particular the current job, when it is in the list), and a resolved
status fetch for the id of `cur` whose body `r` has status `error` and error
detail `d`: the current job becomes `r`, the displayed error is
`Processing failed: ` followed by `d`, no timer is live, the job list keeps its
length, and the entry at index `i` is `r`, with status `error` (and with the id
of `cur` when `r` carries that id). -/
theorem statusResolved_error (c : Component) (h : Reachable c) (hm : c.mounted = true)
    (cur r : Job) (i : Nat) (d : String)
    (hi : c.app.jobs[i]? = some cur)
    (hs : r.status = "error") (hd : r.error = some d) :
    (step (.statusResolved cur.uuid r) c).app.error = "Processing failed: " ++ d ∧
      (step (.statusResolved cur.uuid r) c).timers = [] ∧
      (step (.statusResolved cur.uuid r) c).app.jobs.length = c.app.jobs.length ∧
      (step (.statusResolved cur.uuid r) c).app.jobs[i]? = some r ∧
      (∃ job, (step (.statusResolved cur.uuid r) c).app.jobs[i]? = some job ∧
        job.status = "error" ∧ (r.uuid = cur.uuid → job.uuid = cur.uuid)) ∧
      (step (.statusResolved cur.uuid r) c).app.currentJob = some r := by
  have hinv := inv_of_reachable c h
  obtain ⟨-, -, happ, htimers, -, -⟩ := step_statusResolved cur.uuid r c hinv hm
  have hjobs : (step (.statusResolved cur.uuid r) c).app.jobs[i]? = some r := by
    rw [happ, checkJobStatus_resolved_jobs, updateJobs_getElem? cur.uuid r _ i cur hi]
    simp
  refine ⟨?_, ?_, ?_, hjobs, ⟨r, hjobs, hs, fun hid => hid⟩, ?_⟩
  · rw [happ, checkJobStatus_resolved_error cur.uuid r _ hs, hd]
    rfl
  · rw [htimers, shouldPoll_of_terminal r (Or.inr hs)]
    rfl
  · rw [happ, checkJobStatus_resolved_jobs, updateJobs_length]
  · rw [happ]
    exact checkJobStatus_resolved_currentJob _ r _

theorem statusResolved_error_witness :
    Sample.afterUpload.app.currentJob = some (jobData Sample.uploaded Sample.now) ∧
      Sample.afterUpload.app.jobs = [jobData Sample.uploaded Sample.now] ∧
      (step (.statusResolved "abc-123" (Sample.statusBody "error" (some "invalid format")))
          Sample.afterUpload).app.error = "Processing failed: invalid format" ∧
      (step (.statusResolved "abc-123" (Sample.statusBody "error" (some "invalid format")))
          Sample.afterUpload).timers = [] ∧
      (step (.statusResolved "abc-123" (Sample.statusBody "error" (some "invalid format")))
          Sample.afterUpload).app.jobs
        = [Sample.statusBody "error" (some "invalid format")] :=
  have h := statusResolved_error Sample.afterUpload (reachable_run _ _ Reachable.init)
    (by decide) (jobData Sample.uploaded Sample.now)
    (Sample.statusBody "error" (some "invalid format")) 0 "invalid format"
    (by decide) rfl rfl
  ⟨by decide, by decide, h.1, h.2.1, by decide⟩

theorem run_replicate_fixed (e : Event) (c : Component) (h : step e c = c) (n : Nat) :
    run (List.replicate n e) c = c := by
  induction n with
  | zero => rfl
  | succ n ih =>
    show run (List.replicate n e) (step e c) = c
    rw [h, ih]

theorem step_statusResolved_mounted (u : String) (r : Job) (c : Component)
    (hm : c.mounted = true) :
    step (.statusResolved u r) c
      = setCurrentJobRender (checkJobStatus_resolved u r c.app) c := by
  simp [step, hm]

/-- A resolved status fetch with status `completed`, applied to a component
that satisfies the invariant, yields a state that a second application leaves
as it is, with no live timer and no timer handle used up. -/
theorem step_statusResolved_completed (u : String) (r : Job) (c : Component) (h : Inv c)
    (hs : r.status = "completed") :
    step (.statusResolved u r) (step (.statusResolved u r) c) = step (.statusResolved u r) c ∧
      (step (.statusResolved u r) c).timers = [] ∧
      (step (.statusResolved u r) c).nextTimer = c.nextTimer := by
  have hp : shouldPoll (some r) = false := shouldPoll_of_terminal r (Or.inl hs)
  by_cases hm : c.mounted = true
  · have hs1 : step (.statusResolved u r) c
        = { app := checkJobStatus_resolved u r c.app, mounted := c.mounted, timers := [],
            cleanup := none, nextTimer := c.nextTimer } := by
      rw [step_statusResolved_mounted u r c hm, setCurrentJobRender_eq _ c h,
        checkJobStatus_resolved_currentJob, hp]
      simp
    have hinv1 := inv_step (.statusResolved u r) c h
    refine ⟨?_, by rw [hs1], by rw [hs1]⟩
    have hm1 : (step (.statusResolved u r) c).mounted = true := by rw [hs1]; exact hm
    rw [step_statusResolved_mounted u r _ hm1, setCurrentJobRender_eq _ _ hinv1,
      checkJobStatus_resolved_currentJob, hp, hs1]
    simp [checkJobStatus_resolved_idem]
  · have hs1 : step (.statusResolved u r) c = c := by simp [step, hm]
    rw [hs1, hs1]
    exact ⟨rfl, timers_of_unmounted c h hm, rfl⟩

/-- C10: for a reachable component and a resolved status fetch for id `u` with
body `r` of status `completed`: applying the response `n` more times after the
first gives the very state the first application gave, hence the same job list
and the same current job; no timer is live after the first application or
after any later one, and no timer was started (the next fresh handle is the one
from before the first application). -/
theorem statusResolved_completed_idempotent (c : Component) (h : Reachable c)
    (u : String) (r : Job) (hs : r.status = "completed") (n : Nat) :
    run (List.replicate n (.statusResolved u r)) (step (.statusResolved u r) c)
        = step (.statusResolved u r) c ∧
      (run (List.replicate n (.statusResolved u r)) (step (.statusResolved u r) c)).app.jobs
        = (step (.statusResolved u r) c).app.jobs ∧
      (run (List.replicate n (.statusResolved u r))
          (step (.statusResolved u r) c)).app.currentJob
        = (step (.statusResolved u r) c).app.currentJob ∧
      (step (.statusResolved u r) c).timers = [] ∧
      (run (List.replicate n (.statusResolved u r)) (step (.statusResolved u r) c)).timers
        = [] ∧
      (run (List.replicate n (.statusResolved u r)) (step (.statusResolved u r) c)).nextTimer
        = c.nextTimer := by
  obtain ⟨hfix, ht, hn⟩ := step_statusResolved_completed u r c (inv_of_reachable c h) hs
  have hrun := run_replicate_fixed _ _ hfix n
  rw [hrun]
  exact ⟨rfl, rfl, rfl, ht, ht, hn⟩

theorem statusResolved_completed_idempotent_witness :
    Sample.afterUpload.timers = [0] ∧
      (step (.statusResolved "abc-123" (Sample.statusBody "completed" none))
        Sample.afterUpload).app.jobs = [Sample.statusBody "completed" none] ∧
      (run (List.replicate 3 (.statusResolved "abc-123" (Sample.statusBody "completed" none)))
          (step (.statusResolved "abc-123" (Sample.statusBody "completed" none))
            Sample.afterUpload)).app.jobs = [Sample.statusBody "completed" none] ∧
      (run (List.replicate 3 (.statusResolved "abc-123" (Sample.statusBody "completed" none)))
          (step (.statusResolved "abc-123" (Sample.statusBody "completed" none))
            Sample.afterUpload)).timers = [] :=
  have h := statusResolved_completed_idempotent Sample.afterUpload
    (reachable_run _ _ Reachable.init) "abc-123" (Sample.statusBody "completed" none) rfl 3
  ⟨by decide, by decide, by rw [h.2.1]; decide, h.2.2.2.2.1⟩

end App
